import Mathlib

/-!
Shallow embedding of the `snowdaemon` repository (Python) for checking its
natural-language specification.

The embedded code:

* `src/snowdaemon/helpers.py`
  - `LOG_LEVELS` (lines 28-34): dict mapping severity tokens to the numeric
    levels of Python's `logging` module (DEBUG=10, INFO=20, WARN=30,
    ERROR=40, CRITICAL=50).
  - `parse_log_line` (lines 165-204) with its inner
    `parse_dataflow_log_line` (lines 175-191).
  - `sns_message` (lines 101-122): publishes one message to the topic
    selected by `level_details = {info: ('notification', ...),
    error: ('error', ...)}`.
  - `run` (lines 207-246): the process supervisor.
* `src/snowdaemon/__main__.py`
  - `DEFAULT_CONFIG_PATH` (line 38) and `main` (lines 82-102).

Python strings are modelled as `String` / `List Char` (Python slicing and
splitting are by code point, as is `List Char`).  Python integers are `Int`
(exit codes) and `Nat` (log levels).  A Python expression that can raise is
modelled with `Except PyErr` / an explicit error component.

`LOG_LEVELS.get(tok, 'INFO')` in the source returns either an `int` level or
the *string* `'INFO'` (the default is the string literal, not
`logging.INFO`), so the level slot of a parsed record is modelled by the sum
type `PyLevel` below.
-/

namespace Snowdaemon

/-- Exceptions of the embedded Python code that the claims need:
`IndexError` (list subscript out of range in `parse_log_line`), the
spawn failure of `subprocess.Popen` (e.g. `FileNotFoundError`), and the
`TypeError` that `logging.Logger.log` raises when its level argument is
not an integer. -/
inductive PyErr where
  | indexError
  | fileNotFoundError
  | typeError
deriving DecidableEq, Repr

/-- The value stored in the level slot of a parsed log record.  The source
puts either a numeric level from `LOG_LEVELS` or (as the `dict.get`
default) the string `'INFO'` there, so the model is the sum of both. -/
inductive PyLevel where
  | int (n : Nat)
  | str (s : String)
deriving DecidableEq, Repr

/-- Characters stripped by Python's `str.strip()` with no argument: the
code points for which `str.isspace()` holds (CPython: 09-0D, 1C-1F, 20,
85, A0, 1680, 2000-200A, 2028, 2029, 202F, 205F, 3000). -/
def isPySpace (c : Char) : Bool :=
  let n := c.toNat
  (9 ≤ n && n ≤ 13) || (28 ≤ n && n ≤ 31) || n = 32 || n = 133 || n = 160 ||
    n = 5760 || (8192 ≤ n && n ≤ 8202) || n = 8232 || n = 8233 ||
    n = 8239 || n = 8287 || n = 12288

/-- Removes the characters satisfying `p` from both ends of a list; the
model of Python's `str.strip` family. -/
def stripEnds (p : Char → Bool) (l : List Char) : List Char :=
  ((l.dropWhile p).reverse.dropWhile p).reverse

/-- Python `str.strip()` (no argument): strip whitespace from both ends. -/
def pyStrip (s : String) : String :=
  String.mk (stripEnds isPySpace s.data)

/-- Python `str.strip('"')`: strip double-quote characters from both
ends (used by `parse_dataflow_log_line`). -/
def pyStripQuotes (l : List Char) : List Char :=
  stripEnds (fun c => c = '"') l

/-- Splits at the first occurrence of `sep`: returns the characters before
it and, when `sep` occurs, the characters after it. -/
def splitAtChar (sep : Char) : List Char → List Char × Option (List Char)
  | [] => ([], none)
  | c :: cs =>
    if c = sep then
      ([], some cs)
    else
      match splitAtChar sep cs with
      | (a, r) => (c :: a, r)

/-- Python `line.split(' ', 2)`: split on single space characters, at most
two splits, empty fields preserved, the third field is the untouched
remainder (helpers.py line 194). -/
def pySplitSpace2 (l : List Char) : List (List Char) :=
  match splitAtChar ' ' l with
  | (a, none) => [a]
  | (a, some r1) =>
    match splitAtChar ' ' r1 with
    | (b, none) => [a, b]
    | (b, some r2) => [a, b, r2]

/-- The literal `'[main]'` compared against `line[0:6]` (helpers.py 193). -/
def mainMarker : List Char := ['[', 'm', 'a', 'i', 'n', ']']

/-- The literal `'Error'` compared against `line[0:5]` (helpers.py 197). -/
def errorMarker : List Char := ['E', 'r', 'r', 'o', 'r']

/-- The literal `'time='` compared against `line[0:5]` (helpers.py 199). -/
def timeMarker : List Char := ['t', 'i', 'm', 'e', '=']

/-- The literal pattern `level=` of the regex `level=([^ ]+)`
(helpers.py 176). -/
def levelPat : List Char := ['l', 'e', 'v', 'e', 'l', '=']

/-- The literal pattern `msg="` of the regex `msg="([^"]+)`
(helpers.py 177). -/
def msgPat : List Char := ['m', 's', 'g', '=', '"']

/-- `LOG_LEVELS` (helpers.py 28-34): severity token to numeric level of
Python's `logging` module. -/
def LOG_LEVELS : List (List Char × Nat) :=
  [ (['D', 'E', 'B', 'U', 'G'], 10)
  , (['I', 'N', 'F', 'O'], 20)
  , (['W', 'A', 'R', 'N'], 30)
  , (['E', 'R', 'R', 'O', 'R'], 40)
  , (['C', 'R', 'I', 'T', 'I', 'C', 'A', 'L'], 50) ]

/-- `LOG_LEVELS.get(k, d)`: dictionary lookup with default.  In the source
the default passed at helpers.py 189 and 195 is the *string* `'INFO'`. -/
def logLevelsGet (k : List Char) (d : PyLevel) : PyLevel :=
  match LOG_LEVELS.lookup k with
  | some n => PyLevel.int n
  | none => d

/-- `re.search` for a pattern `pat` followed by a nonempty maximal run of
characters other than `bad` (the regexes `level=([^ ]+)` and
`msg="([^"]+)` of helpers.py 176-177): scans positions left to right; at
the first position where `pat` is a prefix and at least one following
character differs from `bad`, returns that maximal run (the capture
group); otherwise `none` (in Python, `search` returns `None` and
`.group(1)` raises `AttributeError`, caught at helpers.py 180/185). -/
def reSearchCap (pat : List Char) (bad : Char) : List Char → Option (List Char)
  | [] => none
  | c :: cs =>
    if pat.isPrefixOf (c :: cs) then
      match ((c :: cs).drop pat.length).takeWhile (fun x => x ≠ bad) with
      | [] => reSearchCap pat bad cs
      | cap => some cap
    else
      reSearchCap pat bad cs

/-- Inner `parse_dataflow_log_line` (helpers.py 175-191): the level is the
capture of `level=([^ ]+)` (default `'info'` when absent), uppercased and
looked up in `LOG_LEVELS` with default `'INFO'`; the message is the
capture of `msg="([^"]+)` (default: the whole line when absent), then
`strip('"')`-ed. -/
def parse_dataflow_log_line (line : List Char) : PyLevel × List Char :=
  let lvl :=
    match reSearchCap levelPat ' ' line with
    | some cap => cap
    | none => ['i', 'n', 'f', 'o']
  let msg :=
    match reSearchCap msgPat '"' line with
    | some cap => cap
    | none => line
  (logLevelsGet (lvl.map Char.toUpper) (PyLevel.str "INFO"), pyStripQuotes msg)

/-- `parse_log_line` (helpers.py 193-204) on the character list of the
line.  Branches, in source order:
`line[0:6] == '[main]'` (split on `' '` with maxsplit 2, level from field
1, message field 2; fewer than 3 fields raises `IndexError`),
`line[0:5] == 'Error'` (level `LOG_LEVELS['ERROR']`, message `line[7:]`),
`line[0:5] == 'time='` (the dataflow parser), otherwise
(`LOG_LEVELS['WARN']`, whole line). -/
def parse_log_line_chars (line : List Char) :
    Except PyErr (PyLevel × List Char) :=
  if line.take 6 = mainMarker then
    match pySplitSpace2 line with
    | [_p0, p1, p2] => Except.ok (logLevelsGet p1 (PyLevel.str "INFO"), p2)
    | _ => Except.error PyErr.indexError
  else if line.take 5 = errorMarker then
    Except.ok (PyLevel.int 40, line.drop 7)
  else if line.take 5 = timeMarker then
    Except.ok (parse_dataflow_log_line line)
  else
    Except.ok (PyLevel.int 30, line)

/-- `parse_log_line` at the `String` level. -/
def parse_log_line (line : String) : Except PyErr (PyLevel × String) :=
  (parse_log_line_chars line.data).map (fun r => (r.1, String.mk r.2))

/-- Observable side effects of the supervisor: a call `log.log(level,
msg)` (also `log.info` at level 20 and `log.critical` at level 50, per
Python's `logging` constants), and one SNS publication of a message to a
topic by `sns_message`. -/
inductive Event where
  | logged (level : PyLevel) (msg : String)
  | sns (topic : String) (message : String)
deriving DecidableEq, Repr

/-- `sns_message` (helpers.py 101-122): selects the topic from
`level_details = {'info': ('notification', ...), 'error': ('error', ...)}`
and publishes the message once to it.  `run` only ever passes the keys
`'info'` and `'error'`, for which the dict yields the topics
`'notification'` and `'error'` respectively (any other key would raise
`KeyError`; none is ever passed). -/
def sns_message (message : String) (log_level : String) : Event :=
  Event.sns (if log_level = "info" then "notification" else "error") message

/-- The message of helpers.py 223:
`'Launching {0} service with command line:\n{1}'.format(service_name, ' '.join(cmd_args))`. -/
def launchMsg (service_name : String) (cmd_args : List String) : String :=
  "Launching " ++ service_name ++ " service with command line:\n" ++
    String.intercalate " " cmd_args

/-- The message of helpers.py 238:
`'{0} service has finished command with return code 0'.format(service_name)`. -/
def doneMsg (service_name : String) : String :=
  service_name ++ " service has finished command with return code 0"

/-- The message of helpers.py 242:
`'{0} service has stopped with a non-zero return code: {1}'.format(service_name, retval)`. -/
def failMsg (service_name : String) (retval : Int) : String :=
  service_name ++ " service has stopped with a non-zero return code: " ++
    toString retval

/-- Whether a level value is a Python `int` (the only kind
`logging.Logger.log` accepts). -/
def PyLevel.isIntLevel : PyLevel → Bool
  | PyLevel.int _ => true
  | PyLevel.str _ => false

/-- `log.log(lvl, msg)` (`logging.Logger.log`, called at helpers.py 233):
emits the record when the level is an integer and raises
`TypeError("level must be an integer")` otherwise — in particular on the
string `'INFO'` that `parse_log_line` produces for an unrecognized
severity token (the C3 defect). -/
def log_log (lvl : PyLevel) (msg : String) : Except PyErr Event :=
  match lvl with
  | PyLevel.int _ => Except.ok (Event.logged lvl msg)
  | PyLevel.str _ => Except.error PyErr.typeError

/-- The read loop of `run` (helpers.py 226-233) over the finite sequence
of lines the child writes to its merged stdout/stderr.

Stream model: `process.stdout.readline()` returns each written line with
its trailing `'\n'` (so it is a non-empty string even for a blank line),
and returns `''` exactly at end of stream, which for a `subprocess.PIPE`
can persist only once the child has exited; the loop then breaks as soon
as `process.poll()` is not `None`.  Hence every line is read before the
break, and for each one `output` is truthy, so the loop classifies
`output.strip()` (= the line stripped of whitespace, the trailing newline
included) and forwards the record via `log.log`.  An exception raised by
`parse_log_line` (IndexError) or by `log.log` (TypeError on a string
level) aborts the loop (and `run`) at that point: the events already
emitted stay emitted, the crashing line is not forwarded, and no further
line is processed. -/
def runLoop : List String → List Event × Option PyErr
  | [] => ([], none)
  | l :: ls =>
    match parse_log_line (pyStrip l) with
    | Except.error e => ([], some e)
    | Except.ok (lvl, msg) =>
      match log_log lvl msg with
      | Except.error e => ([], some e)
      | Except.ok evt =>
        match runLoop ls with
        | (evts, err) => (evt :: evts, err)

/-- `run` (helpers.py 207-246).  Inputs: the service name (read from the
config), the command args, and the child process modelled as either a
spawn failure of `subprocess.Popen` (helpers.py 224) or the finite list
of output lines it writes followed by its exit code (`process.poll()`
after the stream is drained).  Output: the ordered list of observable
events and either the returned exit code or the exception that
propagated out of `run`. -/
def run (service_name : String) (cmd_args : List String)
    (process : Except PyErr (List String × Int)) :
    List Event × Except PyErr Int :=
  let launch := Event.logged (PyLevel.int 20) (launchMsg service_name cmd_args)
  match process with
  | Except.error e => ([launch], Except.error e)
  | Except.ok (lines, code) =>
    match runLoop lines with
    | (loopEvents, some e) => (launch :: loopEvents, Except.error e)
    | (loopEvents, none) =>
      if code = 0 then
        let msg := doneMsg service_name
        (launch :: loopEvents ++
          [Event.logged (PyLevel.int 20) msg, sns_message msg "info"],
         Except.ok code)
      else
        let msg := failMsg service_name code
        (launch :: loopEvents ++
          [Event.logged (PyLevel.int 50) msg, sns_message msg "error"],
         Except.ok code)

/-- The two outcome events of helpers.py 237-244 (completion or failure
log followed by the notification), for stating the run theorems. -/
def outcomeEvents (service_name : String) (code : Int) : List Event :=
  if code = 0 then
    [Event.logged (PyLevel.int 20) (doneMsg service_name),
     sns_message (doneMsg service_name) "info"]
  else
    [Event.logged (PyLevel.int 50) (failMsg service_name code),
     sns_message (failMsg service_name code) "error"]

/-- Classification of each line the way the read loop performs it
(strip, then `parse_log_line`), as one `Option`-valued traversal: `some
recs`, one record per line in order, exactly when no line raises. -/
def classifyLines : List String → Option (List (PyLevel × String))
  | [] => some []
  | l :: ls =>
    match parse_log_line (pyStrip l), classifyLines ls with
    | Except.ok r, some rs => some (r :: rs)
    | _, _ => none

/-- Number of SNS publications in an event list. -/
def countSns (evts : List Event) : Nat :=
  evts.countP (fun e => match e with | Event.sns _ _ => true | _ => false)

/-- `DEFAULT_CONFIG_PATH` of `__main__.py` line 38. -/
def DEFAULT_CONFIG_PATH : String := "./snowdaemon/config.yaml"

/-- `conf_file_path = args.config if args.config else DEFAULT_CONFIG_PATH`
(`__main__.py` line 91); an absent or empty (falsy) `--config` argument
selects the default path. -/
def conf_file_path (configArg : Option String) : String :=
  match configArg with
  | some s => if s = "" then DEFAULT_CONFIG_PATH else s
  | none => DEFAULT_CONFIG_PATH

/-- `main` of `__main__.py` (lines 82-102): opening the config file at the
selected path raises `FileNotFoundError` when the file is missing, in
which case `sys.exit(1)` runs; otherwise `main` calls `sys.exit` on the
value returned by `run_service()`.  `run_service` (lines 45-63) is
download-and-launch glue whose return value is exactly `sd.run(...)`, so
it is abstracted here as `serviceResult`: the exit code `run` returned,
or the exception that propagated (in which case the Python process dies
with a traceback instead of reaching `sys.exit(rtn)`). -/
def main (configArg : Option String) (fileExists : String → Bool)
    (serviceResult : Except PyErr Int) : Except PyErr Int :=
  if fileExists (conf_file_path configArg) then serviceResult
  else Except.ok 1

/-- The operating-system exit status of the daemon process given what
`main` did: `sys.exit(rtn)` exits with `rtn`; an exception that `main`
does not catch (only the config `open` at `__main__.py` 93-98 sits in a
`try`) terminates the CPython process with a traceback and exit
status 1. -/
def processExitCode (r : Except PyErr Int) : Int :=
  match r with
  | Except.ok c => c
  | Except.error _ => 1

/-- Modelled from the spec (section 4.1, rule 1, and claim C4): the
severity token of the main-thread form is "mapped case-sensitively
against the fixed severity set" {DEBUG, INFO, WARN, ERROR, CRITICAL}.
Written from the spec's words, to be compared with `logLevelsGet`. -/
def specSeverityExact (tok : List Char) : Option Nat :=
  if tok = ['D', 'E', 'B', 'U', 'G'] then some 10
  else if tok = ['I', 'N', 'F', 'O'] then some 20
  else if tok = ['W', 'A', 'R', 'N'] then some 30
  else if tok = ['E', 'R', 'R', 'O', 'R'] then some 40
  else if tok = ['C', 'R', 'I', 'T', 'I', 'C', 'A', 'L'] then some 50
  else none

/-- The amended claim C5, written out as a function of the line: severity
from the `level=<token>` fragment (case-insensitive lookup; an absent
fragment gives the INFO level 20; an unrecognized token gives the string
`'INFO'`, the defect recorded under C3), message from the `msg="<text>`
fragment taken verbatim, falling back to the whole raw line with
double-quote characters stripped from both ends. -/
def classifyTimeAmended (line : List Char) : PyLevel × List Char :=
  let sev :=
    match reSearchCap levelPat ' ' line with
    | none => PyLevel.int 20
    | some tok => logLevelsGet (tok.map Char.toUpper) (PyLevel.str "INFO")
  let msg :=
    match reSearchCap msgPat '"' line with
    | some cap => cap
    | none => pyStripQuotes line
  (sev, msg)

/-- Splitting at the first `sep` decomposes the list: the part before
contains no `sep`, and the original list is before ++ sep :: after. -/
theorem splitAtChar_some (sep : Char) :
    ∀ l a r, splitAtChar sep l = (a, some r) →
      l = a ++ sep :: r ∧ ∀ x ∈ a, x ≠ sep := by
  intro l
  induction l with
  | nil => intro a r h; simp [splitAtChar] at h
  | cons c cs ih =>
    intro a r h
    by_cases hc : c = sep
    · rw [splitAtChar, if_pos hc] at h
      have ha : ([] : List Char) = a := congrArg Prod.fst h
      have hr : some cs = some r := congrArg Prod.snd h
      subst hc
      cases ha
      cases Option.some.injEq .. ▸ hr
      exact ⟨rfl, by simp⟩
    · rw [splitAtChar, if_neg hc] at h
      rcases hcs : splitAtChar sep cs with ⟨a0, r0⟩
      rw [hcs] at h
      have ha : c :: a0 = a := congrArg Prod.fst h
      have hr : r0 = some r := congrArg Prod.snd h
      subst hr
      cases ha
      obtain ⟨hdec, hmem⟩ := ih a0 r hcs
      refine ⟨by rw [hdec]; rfl, ?_⟩
      intro x hx
      rcases List.mem_cons.mp hx with hx | hx
      · exact hx ▸ hc
      · exact hmem x hx

/-- Three fields from `pySplitSpace2` decompose the line as
field0 ++ ' ' ++ field1 ++ ' ' ++ field2, with no space in the first two
fields (field2, the remainder of a maxsplit-2 split, may contain
spaces). -/
theorem pySplitSpace2_three (l a b c : List Char)
    (h : pySplitSpace2 l = [a, b, c]) :
    l = a ++ ' ' :: (b ++ ' ' :: c) ∧
      (∀ x ∈ a, x ≠ ' ') ∧ (∀ x ∈ b, x ≠ ' ') := by
  unfold pySplitSpace2 at h
  rcases h1 : splitAtChar ' ' l with ⟨a0, r0⟩
  rw [h1] at h
  cases r0 with
  | none => simp only [] at h; simp at h
  | some r1 =>
    simp only [] at h
    rcases h2 : splitAtChar ' ' r1 with ⟨b0, r2⟩
    rw [h2] at h
    cases r2 with
    | none => simp only [] at h; simp at h
    | some r3 =>
      simp only [List.cons.injEq, and_true] at h
      obtain ⟨ha, hb, hc⟩ := h
      subst ha hb hc
      obtain ⟨hd1, hm1⟩ := splitAtChar_some ' ' l _ _ h1
      obtain ⟨hd2, hm2⟩ := splitAtChar_some ' ' r1 _ _ h2
      subst hd2
      exact ⟨hd1, hm1, hm2⟩

/-- Boolean equality is `false` on provably distinct values. -/
theorem beq_false_of_ne {α : Type} [BEq α] [LawfulBEq α] {a b : α}
    (h : ¬ a = b) : (a == b) = false := by
  cases hb : a == b
  · rfl
  · exact absurd (eq_of_beq hb) h

/-- The dict lookup `LOG_LEVELS.get(tok, d)` agrees with the spec's
"mapped case-sensitively against the fixed severity set": a recognized
token gives its numeric level, anything else gives the default. -/
theorem logLevelsGet_eq_spec (k : List Char) (d : PyLevel) :
    logLevelsGet k d = (specSeverityExact k).elim d PyLevel.int := by
  unfold logLevelsGet specSeverityExact LOG_LEVELS
  by_cases h1 : k = ['D', 'E', 'B', 'U', 'G']
  · subst h1; rfl
  · by_cases h2 : k = ['I', 'N', 'F', 'O']
    · subst h2; rfl
    · by_cases h3 : k = ['W', 'A', 'R', 'N']
      · subst h3; rfl
      · by_cases h4 : k = ['E', 'R', 'R', 'O', 'R']
        · subst h4; rfl
        · by_cases h5 : k = ['C', 'R', 'I', 'T', 'I', 'C', 'A', 'L']
          · subst h5; rfl
          · simp [List.lookup, h1, h2, h3, h4, h5, beq_false_of_ne]

/-- A capture returned by `reSearchCap` never contains the excluded
character (the regex character class is `[^bad]+`). -/
theorem reSearchCap_no_bad (pat : List Char) (bad : Char) :
    ∀ l cap, reSearchCap pat bad l = some cap → ∀ x ∈ cap, ¬(x = bad) := by
  intro l
  induction l with
  | nil => intro cap h; simp [reSearchCap] at h
  | cons c cs ih =>
    intro cap h
    rw [reSearchCap] at h
    by_cases hp : pat.isPrefixOf (c :: cs)
    · rw [if_pos hp] at h
      rcases htw : ((c :: cs).drop pat.length).takeWhile (fun x => x ≠ bad)
        with _ | ⟨y, ys⟩
      · rw [htw] at h
        exact ih cap h
      · rw [htw] at h
        cases Option.some.injEq .. ▸ h
        intro x hx
        have : x ∈ ((c :: cs).drop pat.length).takeWhile (fun x => x ≠ bad) := by
          rw [htw]; exact hx
        have := List.mem_takeWhile_imp this
        simpa using this
    · rw [if_neg hp] at h
      exact ih cap h

/-- `dropWhile` is the identity when no element satisfies the predicate
(only the head matters). -/
theorem dropWhile_eq_self_of_false {α : Type} {p : α → Bool} {l : List α}
    (h : ∀ x ∈ l, p x = false) : l.dropWhile p = l := by
  cases l with
  | nil => rfl
  | cons a t =>
    apply List.dropWhile_cons_of_neg
    simp [h a (by simp)]

/-- Stripping both ends is the identity when no element satisfies the
predicate. -/
theorem stripEnds_eq_self {p : Char → Bool} {l : List Char}
    (h : ∀ x ∈ l, p x = false) : stripEnds p l = l := by
  unfold stripEnds
  rw [dropWhile_eq_self_of_false h,
    dropWhile_eq_self_of_false (fun x hx => h x (List.mem_reverse.mp hx)),
    List.reverse_reverse]

/-- `strip('"')` does nothing to a list without double quotes (such as a
capture of `msg="([^"]+)`). -/
theorem pyStripQuotes_eq_self {l : List Char} (h : ∀ x ∈ l, ¬(x = '"')) :
    pyStripQuotes l = l :=
  stripEnds_eq_self (fun x hx => by simp [h x hx])

/-- The code's dataflow parser coincides with the amended description
`classifyTimeAmended`: the only differences in the text (absent level
defaults through the dict, the captured message is `strip('"')`-ed) are
invisible in the result, because the capture of `msg="([^"]+)` contains
no quote character. -/
theorem parse_dataflow_eq_amended (l : List Char) :
    parse_dataflow_log_line l = classifyTimeAmended l := by
  unfold parse_dataflow_log_line classifyTimeAmended
  rcases hl : reSearchCap levelPat ' ' l with _ | tok
  · rcases hm : reSearchCap msgPat '"' l with _ | cap
    · rfl
    · simp only []
      rw [pyStripQuotes_eq_self (reSearchCap_no_bad msgPat '"' l cap hm)]
      rfl
  · rcases hm : reSearchCap msgPat '"' l with _ | cap
    · rfl
    · simp only []
      rw [pyStripQuotes_eq_self (reSearchCap_no_bad msgPat '"' l cap hm)]

/-- A line starting with `[main]` in particular starts with `[main`
(slicing one shorter). -/
theorem take_five_of_take_six {l : List Char} (h : l.take 6 = mainMarker) :
    l.take 5 = ['[', 'm', 'a', 'i', 'n'] := by
  have h5 := congrArg (List.take 5) h
  rw [List.take_take] at h5
  simpa using h5

/-- When every line classifies and every classified record carries an
integer level (so `log.log` accepts it), the read loop forwards exactly
the classified records, in order, and finishes without an exception. -/
theorem runLoop_ok :
    ∀ (lines : List String) (recs : List (PyLevel × String)),
      classifyLines lines = some recs →
      (∀ r ∈ recs, r.1.isIntLevel = true) →
      runLoop lines = (recs.map (fun r => Event.logged r.1 r.2), none) := by
  intro lines
  induction lines with
  | nil =>
    intro recs h _
    rw [classifyLines] at h
    cases Option.some.injEq .. ▸ h
    rfl
  | cons l ls ih =>
    intro recs h hall
    rw [classifyLines] at h
    rcases hp : parse_log_line (pyStrip l) with e | r
    · rw [hp] at h; simp at h
    · rw [hp] at h
      rcases hc : classifyLines ls with _ | rs
      · rw [hc] at h; simp at h
      · rw [hc] at h
        simp only [] at h
        cases Option.some.injEq .. ▸ h
        obtain ⟨lvl, msg⟩ := r
        have hint : lvl.isIntLevel = true := hall (lvl, msg) (by simp)
        rcases lvl with n | s
        · rw [runLoop, hp, ih rs hc (fun r hr => hall r (by simp [hr]))]
          rfl
        · exact absurd hint (by simp [PyLevel.isIntLevel])

/-- Classification preserves the number of lines: one record per line. -/
theorem classifyLines_length :
    ∀ (lines : List String) (recs : List (PyLevel × String)),
      classifyLines lines = some recs → recs.length = lines.length := by
  intro lines
  induction lines with
  | nil =>
    intro recs h
    rw [classifyLines] at h
    cases Option.some.injEq .. ▸ h
    rfl
  | cons l ls ih =>
    intro recs h
    rw [classifyLines] at h
    rcases hp : parse_log_line (pyStrip l) with e | r
    · rw [hp] at h; simp at h
    · rw [hp] at h
      rcases hc : classifyLines ls with _ | rs
      · rw [hc] at h; simp at h
      · rw [hc] at h
        simp only [] at h
        cases Option.some.injEq .. ▸ h
        simp [ih rs hc]

/-- The read loop never publishes a notification: all its events are
`log.log` records. -/
theorem countSns_runLoop (lines : List String) :
    countSns (runLoop lines).1 = 0 := by
  induction lines with
  | nil => rfl
  | cons l ls ih =>
    rw [runLoop]
    rcases hp : parse_log_line (pyStrip l) with e | r
    · rfl
    · obtain ⟨lvl, msg⟩ := r
      rcases lvl with n | s
      · rcases hr : runLoop ls with ⟨evts, err⟩
        rw [hr] at ih
        simpa [countSns, log_log] using ih
      · rfl

/-- C6: every line whose first five characters are `Error` is classified
with severity ERROR (numeric level 40) and message the line minus its
first 7 characters; the rule-1 test `[main]` cannot also fire, since
such a line starts with `E`. -/
theorem claim_C6 (line : String) (h : line.data.take 5 = errorMarker) :
    parse_log_line line =
      Except.ok (PyLevel.int 40, String.mk (line.data.drop 7)) := by
  have hmain : ¬ line.data.take 6 = mainMarker := by
    intro hh
    have h5 := take_five_of_take_six hh
    rw [h] at h5
    exact absurd h5 (by decide)
  unfold parse_log_line parse_log_line_chars
  rw [if_neg hmain, if_pos h]
  rfl

/-- C6 witness: the spec's own example, `"Error: disk full"`, classifies
to `(ERROR, "disk full")` (the first 7 characters are `"Error: "`). -/
theorem claim_C6_witness :
    ("Error: disk full" : String).data.take 5 = errorMarker
    ∧ parse_log_line "Error: disk full" =
        Except.ok (PyLevel.int 40, "disk full") :=
  ⟨by decide, claim_C6 "Error: disk full" (by decide)⟩

/-- C7: the classifier falls through the three prefix tests in source
order and the catch-all yields severity WARN (numeric level 30) with the
entire raw line as message; the two closed conjuncts show an earlier
rule winning over a later one on lines matching both. -/
theorem claim_C7 (line : String) (_h0 : line ≠ "")
    (h1 : line.data.take 6 ≠ mainMarker)
    (h2 : line.data.take 5 ≠ errorMarker)
    (h3 : line.data.take 5 ≠ timeMarker) :
    parse_log_line line = Except.ok (PyLevel.int 30, line)
    ∧ parse_log_line "[main] ERROR time=1" =
        Except.ok (PyLevel.int 40, "time=1")
    ∧ parse_log_line "Error: time=2" = Except.ok (PyLevel.int 40, "time=2") := by
  refine ⟨?_, rfl, rfl⟩
  unfold parse_log_line parse_log_line_chars
  rw [if_neg h1, if_neg h2, if_neg h3]
  rfl

/-- C7 witness: the spec's example `"random unclassified output"`
matches no prefix and classifies to `(WARN, whole line)`. -/
theorem claim_C7_witness :
    ("random unclassified output" : String) ≠ ""
    ∧ parse_log_line "random unclassified output" =
        Except.ok (PyLevel.int 30, "random unclassified output") :=
  ⟨by decide,
   (claim_C7 "random unclassified output" (by decide) (by decide) (by decide)
     (by decide)).1⟩

/-- C10: every line starting with `[main]` that the maxsplit-2 space
split cuts into fewer than 3 fields makes `parse_log_line` raise
`IndexError` (`log_parts[1]` or `log_parts[2]` is out of range), so
classification is not total on non-empty lines. -/
theorem claim_C10 (line : String) (h1 : line.data.take 6 = mainMarker)
    (h2 : (pySplitSpace2 line.data).length < 3) :
    parse_log_line line = Except.error PyErr.indexError := by
  unfold parse_log_line parse_log_line_chars
  rw [if_pos h1]
  rcases hs : pySplitSpace2 line.data with _ | ⟨a, _ | ⟨b, _ | ⟨c, rest⟩⟩⟩
  · rfl
  · rfl
  · rfl
  · rw [hs] at h2
    simp at h2
    omega

/-- C10 witness: the bare marker `"[main]"` splits into one field and
classification raises `IndexError`. -/
theorem claim_C10_witness :
    ("[main]" : String).data.take 6 = mainMarker
    ∧ (pySplitSpace2 ("[main]" : String).data).length < 3
    ∧ parse_log_line "[main]" = Except.error PyErr.indexError :=
  ⟨by decide, by decide, claim_C10 "[main]" (by decide) (by decide)⟩

/-- C4 counterexample: `"[main] WARN"` begins with the marker but
`parse_log_line` raises `IndexError` instead of returning a record; and
on `"[main]  WARN msg"` (two spaces) the single-space split yields the
empty field 2 and remainder `"WARN msg"`, so the code returns
`('INFO' as a string, "WARN msg")` where the claim's whitespace-field
reading predicts `(WARN, "msg")`. -/
theorem claim_C4_counterexample :
    parse_log_line "[main] WARN" = Except.error PyErr.indexError
    ∧ parse_log_line "[main]  WARN msg" =
        Except.ok (PyLevel.str "INFO", "WARN msg")
    ∧ decide ((PyLevel.str "INFO", ("WARN msg" : String)) =
        (PyLevel.int 30, ("msg" : String))) = false :=
  ⟨rfl, rfl, rfl⟩

/-- C4 (amended): for a line beginning with `[main]` whose
single-space maxsplit-2 split yields three fields, the result is the
record (field 1 mapped case-sensitively against the fixed severity set,
with the string `'INFO'` as default; message = field 2, the remainder),
and the three fields decompose the line with the first two fields free
of spaces. -/
theorem claim_C4 (line : String) (p0 p1 p2 : List Char)
    (h1 : line.data.take 6 = mainMarker)
    (h2 : pySplitSpace2 line.data = [p0, p1, p2]) :
    parse_log_line line =
      Except.ok ((specSeverityExact p1).elim (PyLevel.str "INFO") PyLevel.int,
        String.mk p2)
    ∧ line.data = p0 ++ ' ' :: (p1 ++ ' ' :: p2)
    ∧ (∀ x ∈ p0, x ≠ ' ') ∧ (∀ x ∈ p1, x ≠ ' ') := by
  obtain ⟨hdec, hm0, hm1⟩ := pySplitSpace2_three line.data p0 p1 p2 h2
  refine ⟨?_, hdec, hm0, hm1⟩
  unfold parse_log_line parse_log_line_chars
  rw [if_pos h1, h2, ← logLevelsGet_eq_spec]
  rfl

/-- C4 witness: the spec's example `"[main] WARN some message"` splits
into `["[main]", "WARN", "some message"]` and classifies to
`(WARN, "some message")`. -/
theorem claim_C4_witness :
    ("[main] WARN some message" : String).data.take 6 = mainMarker
    ∧ (parse_log_line "[main] WARN some message" =
        Except.ok ((specSeverityExact ['W', 'A', 'R', 'N']).elim
          (PyLevel.str "INFO") PyLevel.int,
          String.mk ['s', 'o', 'm', 'e', ' ', 'm', 'e', 's', 's', 'a', 'g', 'e'])
       ∧ ("[main] WARN some message" : String).data =
          ['[', 'm', 'a', 'i', 'n', ']'] ++ ' ' :: (['W', 'A', 'R', 'N'] ++
            ' ' :: ['s', 'o', 'm', 'e', ' ', 'm', 'e', 's', 's', 'a', 'g', 'e'])
       ∧ (∀ x ∈ ['[', 'm', 'a', 'i', 'n', ']'], x ≠ ' ')
       ∧ (∀ x ∈ ['W', 'A', 'R', 'N'], x ≠ ' '))
    ∧ parse_log_line "[main] WARN some message" =
        Except.ok (PyLevel.int 30, "some message") :=
  ⟨by decide,
   claim_C4 "[main] WARN some message" ['[', 'm', 'a', 'i', 'n', ']']
     ['W', 'A', 'R', 'N'] ['s', 'o', 'm', 'e', ' ', 'm', 'e', 's', 's', 'a', 'g', 'e']
     (by decide) (by decide),
   rfl⟩

/-- C3: evidence for the default-severity defect and the two casing
rules.  An unrecognized token (here `TRACE` in the main-thread form and
`notice` in the structured form) makes `LOG_LEVELS.get(tok, 'INFO')`
return the *string* `'INFO'` — a value distinct from the numeric INFO
level 20 that `LOG_LEVELS` maps `'INFO'` to, and one `Logger.log` in
`run` rejects with `TypeError` — while the main-thread form is indeed
case-sensitive (`warn` is not recognized, `WARN` is) and the structured
form is case-insensitive (`wArN` is recognized). -/
theorem claim_C3_code_bug :
    parse_log_line "[main] TRACE hello" = Except.ok (PyLevel.str "INFO", "hello")
    ∧ parse_log_line "time=1 level=notice msg=\"ok\"" =
        Except.ok (PyLevel.str "INFO", "ok")
    ∧ decide (PyLevel.str "INFO" = PyLevel.int 20) = false
    ∧ parse_log_line "[main] warn x" = Except.ok (PyLevel.str "INFO", "x")
    ∧ parse_log_line "[main] WARN ok" = Except.ok (PyLevel.int 30, "ok")
    ∧ parse_log_line "time=1 level=wArN msg=\"m\"" = Except.ok (PyLevel.int 30, "m") :=
  ⟨rfl, rfl, rfl, rfl, rfl, rfl⟩

/-- C5 counterexample: on `'time=1 note="x"'` the `msg="` fragment is
absent, and the message is not the entire raw line but the line with its
trailing double quote stripped (`msg.strip('"')` applies to the
fallback too); and on `'time=3 level=warning msg="w"'` the unrecognized
token `warning` yields the string `'INFO'`, not the INFO severity
level. -/
theorem claim_C5_counterexample :
    parse_log_line "time=1 note=\"x\"" =
      Except.ok (PyLevel.int 20, "time=1 note=\"x")
    ∧ decide (("time=1 note=\"x" : String) = "time=1 note=\"x\"") = false
    ∧ parse_log_line "time=3 level=warning msg=\"w\"" =
        Except.ok (PyLevel.str "INFO", "w") :=
  ⟨rfl, rfl, rfl⟩

/-- C5 (amended): every line beginning with `time=` is classified
exactly as `classifyTimeAmended` describes: severity from the
`level=<token>` fragment (case-insensitive lookup; INFO level 20 when
the fragment is absent; the string `'INFO'` on an unrecognized token,
the defect recorded under C3), message from the `msg="<text>` fragment
taken verbatim, or, when that fragment is absent, the entire raw line
with double-quote characters stripped from both ends. -/
theorem claim_C5 (line : String) (h : line.data.take 5 = timeMarker) :
    parse_log_line line =
      Except.ok ((classifyTimeAmended line.data).1,
        String.mk (classifyTimeAmended line.data).2) := by
  have hmain : ¬ line.data.take 6 = mainMarker := by
    intro hh
    have h5 := take_five_of_take_six hh
    rw [h] at h5
    exact absurd h5 (by decide)
  have herr : ¬ line.data.take 5 = errorMarker := by
    rw [h]; decide
  unfold parse_log_line parse_log_line_chars
  rw [if_neg hmain, if_neg herr, if_pos h, parse_dataflow_eq_amended]
  rfl

/-- C5 witness: the spec's example `'time=2024 level=error msg="disk
full"'` classifies to `(ERROR, "disk full")`. -/
theorem claim_C5_witness :
    ("time=2024 level=error msg=\"disk full\"" : String).data.take 5 = timeMarker
    ∧ parse_log_line "time=2024 level=error msg=\"disk full\"" =
        Except.ok (PyLevel.int 40, "disk full") :=
  ⟨by decide, claim_C5 "time=2024 level=error msg=\"disk full\"" (by decide)⟩

/-- The outcome branch always publishes exactly one notification. -/
theorem countSns_outcome (service_name : String) (code : Int) :
    countSns (outcomeEvents service_name code) = 1 := by
  unfold outcomeEvents
  split
  · rfl
  · rfl

/-- C1 (amended): in every run whose read loop classifies and forwards
all output without an exception (no `IndexError` from `parse_log_line`,
no `TypeError` from `log.log` on the C3 string level — together: the
loop finishes with no pending error), `run` returns the child's exit
code unchanged; when that code is 0 the trace holds exactly one SNS
publication, to the `notification` topic, carrying the completion
message that is also logged at the informational level 20; when the
code is nonzero the trace holds exactly one SNS publication, to the
`error` topic, carrying the failure message that is also logged at the
critical level 50 and that ends with the decimal digits of the exit
code. -/
theorem claim_C1 (service_name : String) (cmd_args : List String)
    (lines : List String) (code : Int)
    (h : (runLoop lines).2 = none) :
    (run service_name cmd_args (Except.ok (lines, code))).2 = Except.ok code
    ∧ (code = 0 →
        countSns (run service_name cmd_args (Except.ok (lines, code))).1 = 1
        ∧ Event.sns "notification" (doneMsg service_name) ∈
            (run service_name cmd_args (Except.ok (lines, code))).1
        ∧ Event.logged (PyLevel.int 20) (doneMsg service_name) ∈
            (run service_name cmd_args (Except.ok (lines, code))).1)
    ∧ (¬ code = 0 →
        countSns (run service_name cmd_args (Except.ok (lines, code))).1 = 1
        ∧ Event.sns "error" (failMsg service_name code) ∈
            (run service_name cmd_args (Except.ok (lines, code))).1
        ∧ Event.logged (PyLevel.int 50) (failMsg service_name code) ∈
            (run service_name cmd_args (Except.ok (lines, code))).1
        ∧ ∃ p, failMsg service_name code = p ++ toString code) := by
  rcases hr : runLoop lines with ⟨evts, err⟩
  rw [hr] at h
  simp only [] at h
  subst h
  have hc0 : List.countP
      (fun e => match e with | Event.sns _ _ => true | _ => false) evts = 0 := by
    have := countSns_runLoop lines
    rw [hr] at this
    exact this
  have hrun : run service_name cmd_args (Except.ok (lines, code)) =
      (Event.logged (PyLevel.int 20) (launchMsg service_name cmd_args) ::
        (evts ++ outcomeEvents service_name code), Except.ok code) := by
    simp only [run]
    rw [hr]
    by_cases hc : code = 0
    · simp [hc, outcomeEvents]
    · simp [hc, outcomeEvents]
  refine ⟨by rw [hrun], ?_, ?_⟩
  · intro hc
    have ho : outcomeEvents service_name code =
        [Event.logged (PyLevel.int 20) (doneMsg service_name),
         Event.sns "notification" (doneMsg service_name)] := by
      simp [outcomeEvents, hc, sns_message]
    rw [hrun, ho]
    refine ⟨?_, by simp, by simp⟩
    simp [countSns, List.countP_cons, List.countP_append, hc0]
  · intro hc
    have ho : outcomeEvents service_name code =
        [Event.logged (PyLevel.int 50) (failMsg service_name code),
         Event.sns "error" (failMsg service_name code)] := by
      simp [outcomeEvents, hc, sns_message]
    rw [hrun, ho]
    refine ⟨?_, by simp, by simp,
      ⟨service_name ++ " service has stopped with a non-zero return code: ", rfl⟩⟩
    simp [countSns, List.countP_cons, List.countP_append, hc0]

/-- C1 witness: a child that prints one line and exits 137 (the spec's
end-to-end example): the run returns 137, publishes exactly one
notification, on the `error` topic, and logs the failure message at the
critical level. -/
theorem claim_C1_witness :
    (runLoop ["hello"]).2 = none
    ∧ (run "svc" ["bin"] (Except.ok (["hello"], 137))).2 = Except.ok 137
    ∧ countSns (run "svc" ["bin"] (Except.ok (["hello"], 137))).1 = 1
    ∧ Event.sns "error" (failMsg "svc" 137) ∈
        (run "svc" ["bin"] (Except.ok (["hello"], 137))).1
    ∧ Event.logged (PyLevel.int 50) (failMsg "svc" 137) ∈
        (run "svc" ["bin"] (Except.ok (["hello"], 137))).1 := by
  have h : (runLoop ["hello"]).2 = none := rfl
  have t := claim_C1 "svc" ["bin"] ["hello"] 137 h
  exact ⟨h, t.1, (t.2.2 (by decide)).1, (t.2.2 (by decide)).2.1,
    (t.2.2 (by decide)).2.2.1⟩

/-- C1 counterexample: two children that exit with code 0 yet trigger
no notification.  One prints `"[main] boom"`, which classification
cannot handle (`IndexError`); the other prints `"[main] TRACE hello"`,
which classifies fine but to the string level `'INFO'`, so `log.log`
raises `TypeError`.  In both runs the exception aborts `run` before the
outcome branch: no completion is logged, nothing is published on any
topic, and the exit code is not returned, although the child exited 0. -/
theorem claim_C1_counterexample :
    run "svc" ["cmd"] (Except.ok (["[main] boom"], 0)) =
      ([Event.logged (PyLevel.int 20) (launchMsg "svc" ["cmd"])],
       Except.error PyErr.indexError)
    ∧ countSns (run "svc" ["cmd"] (Except.ok (["[main] boom"], 0))).1 = 0
    ∧ run "svc" ["cmd"] (Except.ok (["[main] TRACE hello"], 0)) =
        ([Event.logged (PyLevel.int 20) (launchMsg "svc" ["cmd"])],
         Except.error PyErr.typeError)
    ∧ countSns (run "svc" ["cmd"] (Except.ok (["[main] TRACE hello"], 0))).1 = 0 :=
  ⟨rfl, rfl, rfl, rfl⟩

/-- C2 (amended): when every line of the child's output classifies
without an exception to a record with an integer level (so `log.log`
accepts it; a string-level record of the C3 defect would make the loop
raise `TypeError` instead), the run's trace is exactly: the launch log,
then one forwarded record per line (empty lines included), in emission
order, each the classification of the stripped line, then the outcome
events; and the number of forwarded records equals the number of
lines.  All forwarded records precede the outcome, and the exit code is
returned unchanged. -/
theorem claim_C2 (service_name : String) (cmd_args : List String)
    (lines : List String) (code : Int) (recs : List (PyLevel × String))
    (h : classifyLines lines = some recs)
    (hall : ∀ r ∈ recs, r.1.isIntLevel = true) :
    run service_name cmd_args (Except.ok (lines, code)) =
      (Event.logged (PyLevel.int 20) (launchMsg service_name cmd_args) ::
        (recs.map (fun r => Event.logged r.1 r.2) ++
          outcomeEvents service_name code),
       Except.ok code)
    ∧ recs.length = lines.length := by
  constructor
  · simp only [run]
    rw [runLoop_ok lines recs h hall]
    by_cases hc : code = 0
    · simp [hc, outcomeEvents]
    · simp [hc, outcomeEvents]
  · exact classifyLines_length lines recs h

/-- C2 witness: a child printing `"Error: oops"` and exiting 0 yields
exactly one forwarded record, `(ERROR, "oops")`, followed by the
completion outcome. -/
theorem claim_C2_witness :
    classifyLines ["Error: oops"] = some [(PyLevel.int 40, "oops")]
    ∧ (∀ r ∈ [((PyLevel.int 40 : PyLevel), ("oops" : String))],
        r.1.isIntLevel = true)
    ∧ (run "svc" ["bin", "arg"] (Except.ok (["Error: oops"], 0)) =
        (Event.logged (PyLevel.int 20) (launchMsg "svc" ["bin", "arg"]) ::
          ([((PyLevel.int 40 : PyLevel), ("oops" : String))].map
            (fun r => Event.logged r.1 r.2) ++ outcomeEvents "svc" 0),
         Except.ok 0)
       ∧ [((PyLevel.int 40 : PyLevel), ("oops" : String))].length =
          (["Error: oops"] : List String).length) :=
  ⟨rfl, by decide, claim_C2 "svc" ["bin", "arg"] ["Error: oops"] 0
    [(PyLevel.int 40, "oops")] rfl (by decide)⟩

/-- C2 counterexample: a child that emits one empty line and exits 0.
The loop reads `"\n"`, which is truthy, strips it and classifies the
empty string, forwarding the record `(WARN, "")` — the claim's "empty
lines are treated as no output and are not classified" does not hold of
emitted blank lines, and the record count is one although no non-empty
line exists.  Second conjunct: a line on which classification raises
aborts the run, so not even the completion outcome is reported.  Third
and fourth conjuncts: a line that classifies successfully but to the
C3 string level is not forwarded either — `log.log` raises `TypeError`,
the trace stops at the launch log and the outcome is never reported. -/
theorem claim_C2_counterexample :
    (run "svc" ["cmd"] (Except.ok ([""], 0))).1 =
      [Event.logged (PyLevel.int 20) (launchMsg "svc" ["cmd"]),
       Event.logged (PyLevel.int 30) "",
       Event.logged (PyLevel.int 20) (doneMsg "svc"),
       Event.sns "notification" (doneMsg "svc")]
    ∧ (run "s2" ["cmd"] (Except.ok (["[main] partial"], 0))).2 =
        Except.error PyErr.indexError
    ∧ (run "s3" ["cmd"] (Except.ok (["[main] TRACE hi"], 0))).1 =
        [Event.logged (PyLevel.int 20) (launchMsg "s3" ["cmd"])]
    ∧ (run "s3" ["cmd"] (Except.ok (["[main] TRACE hi"], 0))).2 =
        Except.error PyErr.typeError :=
  ⟨rfl, rfl, rfl, rfl⟩

/-- C8: when `Popen` raises (executable missing), the exception
propagates out of `run` unchanged — the only event before it is the
launch log: no line is read, neither outcome branch runs, and no
notification is published on any topic. -/
theorem claim_C8 (service_name : String) (cmd_args : List String) (e : PyErr) :
    run service_name cmd_args (Except.error e) =
      ([Event.logged (PyLevel.int 20) (launchMsg service_name cmd_args)],
       Except.error e)
    ∧ countSns (run service_name cmd_args (Except.error e)).1 = 0 :=
  ⟨rfl, rfl⟩

/-- C9 counterexample: configuration present, child prints
`"[main] oops"` and exits with code 0.  `run` raises `IndexError`
(helpers.py 194-196), the exception escapes `main`'s `try` (which wraps
only the config `open`), and the daemon's process dies with exit
status 1 although the supervised child's exit code is 0 — so "otherwise
the daemon's own process exit code equals the supervised child's exit
code" fails. -/
theorem claim_C9_counterexample :
    (run "svc" ["cmd"] (Except.ok (["[main] oops"], 0))).2 =
      Except.error PyErr.indexError
    ∧ processExitCode (main (some "cfg.yaml") (fun _ => true)
        (run "svc" ["cmd"] (Except.ok (["[main] oops"], 0))).2) = 1
    ∧ decide ((1 : Int) = 0) = false :=
  ⟨rfl, rfl, rfl⟩

/-- C9 (amended): when the configuration file at the selected path is
missing the daemon's process exits with status 1; when it is present
and the supervised pipeline returns normally the daemon's exit status
is the child's exit code, unchanged; when an uncaught exception escapes
the pipeline (only the config `open` sits in a `try`) the daemon dies
with a traceback and exit status 1 regardless of the child's code.  An
absent `--config` argument selects the default path
`./snowdaemon/config.yaml`. -/
theorem claim_C9 (configArg : Option String) (fileExists : String → Bool)
    (serviceResult : Except PyErr Int) (c : Int) (e : PyErr) :
    (fileExists (conf_file_path configArg) = false →
      processExitCode (main configArg fileExists serviceResult) = 1)
    ∧ (fileExists (conf_file_path configArg) = true →
        serviceResult = Except.ok c →
        processExitCode (main configArg fileExists serviceResult) = c)
    ∧ (fileExists (conf_file_path configArg) = true →
        serviceResult = Except.error e →
        processExitCode (main configArg fileExists serviceResult) = 1)
    ∧ conf_file_path none = "./snowdaemon/config.yaml" := by
  refine ⟨?_, ?_, ?_, rfl⟩
  · intro h
    unfold main
    rw [h]
    rfl
  · intro h hs
    unfold main
    rw [h, hs]
    rfl
  · intro h hs
    unfold main
    rw [h, hs]
    rfl

/-- C9 witness: with the config file missing the exit status is 1; with
it present and a normal run it is the child's code (here 7); with it
present and a crashed run (the `IndexError` of the pipeline) it is 1. -/
theorem claim_C9_witness :
    processExitCode (main (some "conf.yaml") (fun _ => false)
      (Except.ok 7)) = 1
    ∧ processExitCode (main (some "conf.yaml") (fun _ => true)
        (Except.ok 7)) = 7
    ∧ processExitCode (main (some "conf.yaml") (fun _ => true)
        (Except.error PyErr.indexError)) = 1 :=
  ⟨(claim_C9 (some "conf.yaml") (fun _ => false) (Except.ok 7) 7
      PyErr.indexError).1 rfl,
   (claim_C9 (some "conf.yaml") (fun _ => true) (Except.ok 7) 7
      PyErr.indexError).2.1 rfl rfl,
   (claim_C9 (some "conf.yaml") (fun _ => true) (Except.error PyErr.indexError)
      7 PyErr.indexError).2.2.1 rfl rfl⟩

end Snowdaemon
